import Mathlib

/-!
A verification development for the chat widget in `ChatInterface`
(`components/ui/ChatInterface.tsx`): the transcript store (message list,
draft input, loading flag, last error) and the `handleSubmit` controller
that posts the draft to the backend and appends the reply or error.

The embedding is shallow: the React state is a record `ChatState`, and the
two synchronous halves of `handleSubmit` (before the `await fetch`, and the
settlement after it) are the functions `submitStart` and `submitSettle`.
`Date.now()` readings are modelled as explicit `Nat` clock values; message
ids are the decimal strings the code builds from them.
-/

namespace Chat

/-- Role of a chat message: the `role` field is `'user' | 'bot'` in the source. -/
inductive Role where
  | user
  | bot
deriving DecidableEq, Repr

/-- The `Message` interface of the source: `id : string`, `role`, `content`. -/
structure Message where
  id : String
  role : Role
  content : String
deriving DecidableEq, Repr

/-- The component state held in the four `useState` hooks:
`messages`, `input`, `isLoading`, `error`. -/
structure ChatState where
  messages : List Message
  input : String
  isLoading : Bool
  error : Option String
deriving DecidableEq, Repr

/-- The initial state: `useState<Message[]>([])`, `useState('')`,
`useState(false)`, `useState<string | null>(null)`. -/
def initState : ChatState :=
  { messages := [], input := "", isLoading := false, error := none }

/-- JavaScript `String.prototype.trim()`: remove leading and trailing
whitespace (modelled with `Char.isWhitespace` as the whitespace class). -/
def jsTrim (s : String) : String :=
  ⟨((s.data.dropWhile Char.isWhitespace).reverse.dropWhile Char.isWhitespace).reverse⟩

/-- The HTTP request issued by `handleSubmit`: a `fetch` of
`http://127.0.0.1:8000/chat` with `method: 'POST'`, header
`Content-Type: application/json`, and body `JSON.stringify({ query: input })`
-- recorded as the single field `query`. -/
structure Request where
  url : String
  method : String
  contentType : String
  query : String
deriving DecidableEq, Repr

/-- Builds the request of `handleSubmit` for a given query string
(the local `input` captured at submit time). -/
def mkRequest (q : String) : Request :=
  { url := "http://127.0.0.1:8000/chat"
    method := "POST"
    contentType := "application/json"
    query := q }

/-- How a `fetch` settles, as far as `handleSubmit` inspects it:
* `success r` — `response.ok` and the parsed JSON body has `response = r`;
* `httpError d` — `!response.ok`, the parsed body's `detail` field is `d`
  (`none` when the field is absent);
* `transportError m` — the `fetch` promise rejected with an error whose
  `message` is `m` (no HTTP response at all). -/
inductive Outcome where
  | success (response : String)
  | httpError (detail : Option String)
  | transportError (message : String)
deriving DecidableEq, Repr

/-- The fallback error text of `throw new Error(errorData.detail || 'An unknown
error occurred.')`. -/
def fallbackError : String := "An unknown error occurred."

/-- `errorData.detail || 'An unknown error occurred.'`: JavaScript `||` takes
the fallback when `detail` is absent (`undefined`) *or* an empty string, since
both are falsy. -/
def detailOrFallback : Option String → String
  | none => fallbackError
  | some d => if d = "" then fallbackError else d

/-- The first, synchronous half of `handleSubmit`, up to the `await fetch`:
`if (!input.trim() || isLoading) return;` then build `userMessage` with
`id: Date.now().toString()` and `content: input` (raw), append it, clear the
input, set loading, clear the error, and issue the request with
`body: JSON.stringify({ query: input })` — `input` here is the local variable
captured before `setInput('')`. Returns the new state and `some` request, or
`(s, none)` when the guard makes the submit a no-op. `now` is the value of
`Date.now()` at this point. -/
def submitStart (s : ChatState) (now : Nat) : ChatState × Option Request :=
  if jsTrim s.input = "" ∨ s.isLoading then (s, none)
  else
    let userMessage : Message :=
      { id := Nat.repr now, role := Role.user, content := s.input }
    ({ messages := s.messages ++ [userMessage]
       input := ""
       isLoading := true
       error := none },
     some (mkRequest s.input))

/-- The second half of `handleSubmit`: how the state is updated once the
`fetch` settles with outcome `out`, `now` being the value of `Date.now()` at
settlement time.
* `success r`: append a bot message `⟨(now+1).toString, bot, r⟩`.
* `httpError d`: `throw new Error(d || fallback)` is caught below.
* caught error with message `m` (thrown `httpError` or `transportError`):
  `setError(m)` and append a bot message with content `"Error: " ++ m`.
* `finally { setIsLoading(false) }` on every path. -/
def submitSettle (s : ChatState) (out : Outcome) (now : Nat) : ChatState :=
  match out with
  | Outcome.success r =>
      { s with
        messages := s.messages ++ [{ id := Nat.repr (now + 1), role := Role.bot, content := r }]
        isLoading := false }
  | Outcome.httpError d =>
      let m := detailOrFallback d
      { s with
        error := some m
        messages :=
          s.messages ++ [{ id := Nat.repr (now + 1), role := Role.bot, content := "Error: " ++ m }]
        isLoading := false }
  | Outcome.transportError m =>
      { s with
        error := some m
        messages :=
          s.messages ++ [{ id := Nat.repr (now + 1), role := Role.bot, content := "Error: " ++ m }]
        isLoading := false }

/-- An externally visible event of the component:
* `type t` — the input's `onChange` handler, `setInput(e.target.value)`;
* `submitCycle t₁ out t₂` — one complete run of `handleSubmit`: the guard is
  evaluated with `Date.now() = t₁`; if it passes, the issued request settles
  with outcome `out` when `Date.now() = t₂`.  Because the loading flag gates
  new submissions and `finally` always clears it, every issued request settles
  before the next event. -/
inductive Event where
  | type (text : String)
  | submitCycle (t₁ : Nat) (out : Outcome) (t₂ : Nat)
deriving DecidableEq, Repr

/-- One event's effect on the state. -/
def step (s : ChatState) : Event → ChatState
  | Event.type t => { s with input := t }
  | Event.submitCycle t₁ out t₂ =>
      match submitStart s t₁ with
      | (s', none) => s'
      | (s', some _) => submitSettle s' out t₂

/-- Run a sequence of events from a state. -/
def run (s : ChatState) : List Event → ChatState
  | [] => s
  | e :: evs => run (step s e) evs

/-- The `Date.now()` readings an event consumes, in order. A submit cycle
reads the clock for the user message id and again for the reply id; a
keystroke reads no clock. -/
def eventTimes : Event → List Nat
  | Event.type _ => []
  | Event.submitCycle t₁ _ t₂ => [t₁, t₂]

/-- All clock readings of an event sequence, in order. -/
def clockSeq : List Event → List Nat
  | [] => []
  | e :: evs => eventTimes e ++ clockSeq evs

/-- The content of the message a settlement appends: the `response` field on
success, the caught error's message behind the `Error: ` template otherwise. -/
def settleContent : Outcome → String
  | Outcome.success r => r
  | Outcome.httpError d => "Error: " ++ detailOrFallback d
  | Outcome.transportError m => "Error: " ++ m

/-- Numeric value of a decimal digit character (inverse of `Nat.digitChar` on
digits below 10); used only to prove `Nat.repr` injective. -/
def decodeDigit (c : Char) : Nat := c.toNat - 48

/-- Value of a decimal digit string, most significant digit first; left
inverse of `Nat.toDigits 10`. -/
def decodeVal (l : List Char) : Nat :=
  l.foldl (fun a c => a * 10 + decodeDigit c) 0

/-- A concrete state with a pending draft, used to instantiate theorems with
hypotheses at a sample input. -/
def draftState : ChatState :=
  { messages := [], input := "What is Qdrant?", isLoading := false, error := none }

/-- C9 counterexample trace: submissions at millisecond times 0 (settling at
0) and 1 (settling at 1); the clock readings `[0, 0, 1, 1]` are weakly
monotone, as a real `Date.now()` can be. -/
def collidingTrace : List Event :=
  [Event.type "q", Event.submitCycle 0 (Outcome.success "a") 0,
   Event.type "r", Event.submitCycle 1 (Outcome.success "b") 1]

/-- A trace whose successive clock readings are at least 2 apart, used to
instantiate the amended uniqueness theorem. -/
def gappedTrace : List Event :=
  [Event.type "q", Event.submitCycle 0 (Outcome.success "a") 2,
   Event.type "r", Event.submitCycle 4 (Outcome.success "b") 6]

end Chat

namespace Chat

/-! Helper lemmas. `Nat.repr` (the model of `Date.now().toString()`) is
injective: `decodeVal` is a left inverse of `Nat.toDigits 10`. -/

lemma toDigitsCore_eq_toDigits :
    ∀ n fuel ds, n < fuel → Nat.toDigitsCore 10 fuel n ds = Nat.toDigits 10 n ++ ds := by
  intro n
  induction n using Nat.strong_induction_on with
  | _ n ih =>
    intro fuel ds hfuel
    cases fuel with
    | zero => omega
    | succ f =>
      by_cases h0 : n / 10 = 0
      · simp [Nat.toDigitsCore, Nat.toDigits, h0]
      · have hdiv : n / 10 < n := Nat.div_lt_self (by omega) (by omega)
        have hlhs : Nat.toDigitsCore 10 (f + 1) n ds =
            Nat.toDigitsCore 10 f (n / 10) (Nat.digitChar (n % 10) :: ds) := by
          simp [Nat.toDigitsCore, h0]
        have hrhs : Nat.toDigits 10 n =
            Nat.toDigitsCore 10 n (n / 10) [Nat.digitChar (n % 10)] := by
          simp [Nat.toDigits, Nat.toDigitsCore, h0]
        rw [hlhs, hrhs, ih (n / 10) hdiv f _ (by omega), ih (n / 10) hdiv n _ hdiv]
        simp

lemma decodeVal_toDigits : ∀ n, decodeVal (Nat.toDigits 10 n) = n := by
  intro n
  induction n using Nat.strong_induction_on with
  | _ n ih =>
    by_cases h0 : n / 10 = 0
    · have hn : n < 10 := by omega
      have this : Nat.toDigits 10 n = [Nat.digitChar (n % 10)] := by
        simp [Nat.toDigits, Nat.toDigitsCore, h0]
      have hdig : ∀ d, d < 10 → decodeDigit (Nat.digitChar d) = d := by decide
      rw [this, Nat.mod_eq_of_lt hn]
      simp [decodeVal, hdig n hn]
    · have hdiv : n / 10 < n := Nat.div_lt_self (by omega) (by omega)
      have hsplit : Nat.toDigits 10 n =
          Nat.toDigits 10 (n / 10) ++ [Nat.digitChar (n % 10)] := by
        rw [Nat.toDigits]
        have : Nat.toDigitsCore 10 (n + 1) n [] =
            Nat.toDigitsCore 10 n (n / 10) [Nat.digitChar (n % 10)] := by
          simp [Nat.toDigitsCore, h0]
        rw [this, toDigitsCore_eq_toDigits (n / 10) n _ hdiv]
      have hdig : ∀ d, d < 10 → decodeDigit (Nat.digitChar d) = d := by decide
      rw [hsplit]
      unfold decodeVal
      rw [List.foldl_append]
      have := ih (n / 10) hdiv
      unfold decodeVal at this
      rw [this]
      simp [hdig (n % 10) (Nat.mod_lt _ (by omega))]
      omega

lemma natRepr_injective : Function.Injective Nat.repr := by
  intro m n h
  have hdata : Nat.toDigits 10 m = Nat.toDigits 10 n := by
    have := congrArg String.data h
    simpa [Nat.repr, List.asString] using this
  have := congrArg decodeVal hdata
  simpa [decodeVal_toDigits] using this

end Chat

namespace Chat

/-- The message a settlement appends always has `isLoading` cleared by the
`finally` block. -/
lemma submitSettle_isLoading (s : ChatState) (out : Outcome) (now : Nat) :
    (submitSettle s out now).isLoading = false := by
  cases out <;> rfl

/-- Every settlement appends exactly one bot message, with id built from the
settlement-time clock. -/
lemma submitSettle_messages (s : ChatState) (out : Outcome) (now : Nat) :
    (submitSettle s out now).messages =
      s.messages ++
        [{ id := Nat.repr (now + 1), role := Role.bot, content := settleContent out }] := by
  cases out <;> rfl

/-- C1: for a draft that is non-empty after trimming, with no request in
flight, `handleSubmit` appends exactly one `user` message whose content is the
raw (untrimmed) draft, and this append happens in the synchronous half, before
the settlement appends the bot reply or error message. -/
theorem submit_appends_user_message_first (s : ChatState) (now : Nat)
    (hne : jsTrim s.input ≠ "") (hfl : s.isLoading = false) :
    (submitStart s now).1.messages =
      s.messages ++ [{ id := Nat.repr now, role := Role.user, content := s.input }] ∧
    ∀ (out : Outcome) (t : Nat),
      (submitSettle (submitStart s now).1 out t).messages =
        s.messages ++
          [{ id := Nat.repr now, role := Role.user, content := s.input },
           { id := Nat.repr (t + 1), role := Role.bot, content := settleContent out }] := by
  constructor
  · simp [submitStart, hne, hfl]
  · intro out t
    cases out <;> simp [submitStart, submitSettle, settleContent, hne, hfl]

/-- Witness for `submit_appends_user_message_first` at a concrete state. -/
theorem submit_appends_user_message_first_w :
    (submitStart draftState 3).1.messages =
      draftState.messages ++
        [{ id := Nat.repr 3, role := Role.user, content := draftState.input }] ∧
    ∀ (out : Outcome) (t : Nat),
      (submitSettle (submitStart draftState 3).1 out t).messages =
        draftState.messages ++
          [{ id := Nat.repr 3, role := Role.user, content := draftState.input },
           { id := Nat.repr (t + 1), role := Role.bot, content := settleContent out }] :=
  submit_appends_user_message_first draftState 3 (by decide) rfl

/-- C2: a draft that is empty (or whitespace-only, so that `input.trim()` is
empty) makes `handleSubmit` a silent no-op: the state is returned unchanged
and no request is issued. -/
theorem submit_blank_noop (s : ChatState) (now : Nat) (h : jsTrim s.input = "") :
    submitStart s now = (s, none) := by
  simp [submitStart, h]

/-- Witness for `submit_blank_noop` at a whitespace-only draft. -/
theorem submit_blank_noop_w :
    submitStart { initState with input := "   " } 7 = ({ initState with input := "   " }, none) :=
  submit_blank_noop { initState with input := "   " } 7 (by decide)

/-- C3: while a request is in flight, `handleSubmit` is a no-op: the state is
unchanged and no second request is issued. -/
theorem submit_while_loading_noop (s : ChatState) (now : Nat) (h : s.isLoading = true) :
    submitStart s now = (s, none) := by
  simp [submitStart, h]

/-- Witness for `submit_while_loading_noop` at a concrete in-flight state. -/
theorem submit_while_loading_noop_w :
    submitStart { draftState with isLoading := true } 9 =
      ({ draftState with isLoading := true }, none) :=
  submit_while_loading_noop { draftState with isLoading := true } 9 rfl

/-- C4: whenever `handleSubmit` issues a request, the loading flag was false
before, is true in the state between the user-message append and the
settlement, and is false again after the settlement on every path (the
`finally` block). -/
theorem inflight_window (s : ChatState) (now : Nat) (s' : ChatState) (req : Request)
    (h : submitStart s now = (s', some req)) :
    s.isLoading = false ∧ s'.isLoading = true ∧
    ∀ (out : Outcome) (t : Nat), (submitSettle s' out t).isLoading = false := by
  by_cases hg : jsTrim s.input = "" ∨ s.isLoading
  · rw [submitStart] at h
    rw [if_pos hg] at h
    exact absurd (congrArg Prod.snd h) (by simp)
  · push_neg at hg
    rw [submitStart] at h
    rw [if_neg] at h
    · injection h with h1 h2
      refine ⟨by simpa using hg.2, ?_, fun out t => submitSettle_isLoading s' out t⟩
      rw [← h1]
    · push_neg
      exact hg

/-- Witness for `inflight_window` at a concrete submission. -/
theorem inflight_window_w :
    draftState.isLoading = false ∧
    ({ messages :=
        [{ id := Nat.repr 3, role := Role.user, content := draftState.input }]
       input := ""
       isLoading := true
       error := none } : ChatState).isLoading = true ∧
    ∀ (out : Outcome) (t : Nat),
      (submitSettle
        { messages :=
            [{ id := Nat.repr 3, role := Role.user, content := draftState.input }]
          input := ""
          isLoading := true
          error := none } out t).isLoading = false :=
  inflight_window draftState 3 _ (mkRequest draftState.input) (by decide)

/-- C5: a submission that passes the guard issues exactly one request: a POST
to the fixed endpoint with JSON content type whose body has the single field
`query` holding the draft as read at submit time — while the stored draft is
already cleared. -/
theorem submit_issues_single_request (s : ChatState) (now : Nat)
    (hne : jsTrim s.input ≠ "") (hfl : s.isLoading = false) :
    (submitStart s now).2 = some (mkRequest s.input) ∧
    (mkRequest s.input).method = "POST" ∧
    (mkRequest s.input).contentType = "application/json" ∧
    (mkRequest s.input).query = s.input ∧
    (submitStart s now).1.input = "" := by
  refine ⟨?_, rfl, rfl, rfl, ?_⟩ <;> simp [submitStart, hne, hfl]

/-- Witness for `submit_issues_single_request` at a concrete state. -/
theorem submit_issues_single_request_w :
    (submitStart draftState 3).2 = some (mkRequest draftState.input) ∧
    (mkRequest draftState.input).method = "POST" ∧
    (mkRequest draftState.input).contentType = "application/json" ∧
    (mkRequest draftState.input).query = draftState.input ∧
    (submitStart draftState 3).1.input = "" :=
  submit_issues_single_request draftState 3 (by decide) rfl

/-- C6: a full submit cycle whose request succeeds with body field
`response = r` appends exactly one bot message with content `r` after the user
message, and ends with the loading flag false (and the error still cleared). -/
theorem success_appends_bot_reply (s : ChatState) (t₁ t₂ : Nat) (r : String)
    (hne : jsTrim s.input ≠ "") (hfl : s.isLoading = false) :
    step s (Event.submitCycle t₁ (Outcome.success r) t₂) =
      { messages := s.messages ++
          [{ id := Nat.repr t₁, role := Role.user, content := s.input },
           { id := Nat.repr (t₂ + 1), role := Role.bot, content := r }]
        input := ""
        isLoading := false
        error := none } := by
  simp [step, submitStart, hne, hfl, submitSettle]

/-- Witness for `success_appends_bot_reply` at a concrete cycle. -/
theorem success_appends_bot_reply_w :
    step draftState (Event.submitCycle 3 (Outcome.success "Paris is the capital.") 5) =
      { messages := draftState.messages ++
          [{ id := Nat.repr 3, role := Role.user, content := draftState.input },
           { id := Nat.repr 6, role := Role.bot, content := "Paris is the capital." }]
        input := ""
        isLoading := false
        error := none } :=
  success_appends_bot_reply draftState 3 5 "Paris is the capital." (by decide) rfl

/-- C10: however the request settles — success, HTTP error, or transport
failure — a submission that passed the guard leaves the draft empty: it is
cleared right after the user-message append and never restored. -/
theorem submit_leaves_draft_empty (s : ChatState) (t₁ t₂ : Nat) (out : Outcome)
    (hne : jsTrim s.input ≠ "") (hfl : s.isLoading = false) :
    (submitStart s t₁).1.input = "" ∧
    (step s (Event.submitCycle t₁ out t₂)).input = "" := by
  constructor
  · simp [submitStart, hne, hfl]
  · cases out <;> simp [step, submitStart, submitSettle, hne, hfl]

/-- Witness for `submit_leaves_draft_empty` at a concrete failing cycle. -/
theorem submit_leaves_draft_empty_w :
    (submitStart draftState 3).1.input = "" ∧
    (step draftState (Event.submitCycle 3 (Outcome.transportError "Failed to fetch") 5)).input =
      "" :=
  submit_leaves_draft_empty draftState 3 5 (Outcome.transportError "Failed to fetch")
    (by decide) rfl

end Chat

namespace Chat

/-- C7 counterexample: the `detail` field can be present yet not used as the
error text. With body `{"detail": ""}` on a non-success status, JavaScript's
`errorData.detail || fallback` evaluates to the fallback because the empty
string is falsy, so last-error is the fallback, not the present `detail`. -/
theorem empty_detail_uses_fallback :
    (step { initState with input := "hi" }
        (Event.submitCycle 0 (Outcome.httpError (some "")) 0)).error =
      some "An unknown error occurred." ∧
    ("An unknown error occurred." : String) ≠ "" := by
  constructor <;> decide

/-- C7 amended: on a non-success HTTP status the error text is the body's
`detail` field when it is present and non-empty, and the generic fallback when
it is absent or empty; exactly one bot message `"Error: " ++ text` is
appended, last-error is set to that text, and the loading flag ends false. -/
theorem http_error_detail_or_fallback (s : ChatState) (t₁ t₂ : Nat) (d : Option String)
    (hne : jsTrim s.input ≠ "") (hfl : s.isLoading = false) :
    step s (Event.submitCycle t₁ (Outcome.httpError d) t₂) =
      { messages := s.messages ++
          [{ id := Nat.repr t₁, role := Role.user, content := s.input },
           { id := Nat.repr (t₂ + 1), role := Role.bot,
             content := "Error: " ++ detailOrFallback d }]
        input := ""
        isLoading := false
        error := some (detailOrFallback d) } ∧
    (∀ x, d = some x → x ≠ "" → detailOrFallback d = x) ∧
    ((d = none ∨ d = some "") → detailOrFallback d = fallbackError) := by
  refine ⟨?_, ?_, ?_⟩
  · simp [step, submitStart, submitSettle, hne, hfl]
  · intro x hx hne'
    subst hx
    simp [detailOrFallback, hne']
  · rintro (rfl | rfl) <;> simp [detailOrFallback]

/-- Witness for `http_error_detail_or_fallback` at a concrete failure. -/
theorem http_error_detail_or_fallback_w :
    step draftState (Event.submitCycle 3 (Outcome.httpError (some "File not found")) 5) =
      { messages := draftState.messages ++
          [{ id := Nat.repr 3, role := Role.user, content := draftState.input },
           { id := Nat.repr 6, role := Role.bot,
             content := "Error: " ++ detailOrFallback (some "File not found") }]
        input := ""
        isLoading := false
        error := some (detailOrFallback (some "File not found")) } ∧
    (∀ x, (some "File not found" : Option String) = some x → x ≠ "" →
      detailOrFallback (some "File not found") = x) ∧
    ((some "File not found" = (none : Option String) ∨ some "File not found" = some "") →
      detailOrFallback (some "File not found") = fallbackError) :=
  http_error_detail_or_fallback draftState 3 5 (some "File not found") (by decide) rfl

/-- C8: a transport-level failure with message `m` appends exactly one bot
message `"Error: " ++ m` (so the message contains the transport error's
description), sets last-error to `m`, ends with the loading flag false, and
leaves submit usable: typing any non-blank text afterwards makes the next
submit issue a request. -/
theorem transport_error_handled (s : ChatState) (t₁ t₂ : Nat) (m : String)
    (hne : jsTrim s.input ≠ "") (hfl : s.isLoading = false) :
    step s (Event.submitCycle t₁ (Outcome.transportError m) t₂) =
      { messages := s.messages ++
          [{ id := Nat.repr t₁, role := Role.user, content := s.input },
           { id := Nat.repr (t₂ + 1), role := Role.bot, content := "Error: " ++ m }]
        input := ""
        isLoading := false
        error := some m } ∧
    ∀ (text : String) (now : Nat), jsTrim text ≠ "" →
      (submitStart
          (step (step s (Event.submitCycle t₁ (Outcome.transportError m) t₂))
            (Event.type text)) now).2.isSome = true := by
  have hcycle : step s (Event.submitCycle t₁ (Outcome.transportError m) t₂) =
      { messages := s.messages ++
          [{ id := Nat.repr t₁, role := Role.user, content := s.input },
           { id := Nat.repr (t₂ + 1), role := Role.bot, content := "Error: " ++ m }]
        input := ""
        isLoading := false
        error := some m } := by
    simp [step, submitStart, submitSettle, hne, hfl]
  refine ⟨hcycle, ?_⟩
  intro text now htext
  rw [hcycle]
  simp [step, submitStart, htext]

/-- Witness for `transport_error_handled` at a concrete refused connection. -/
theorem transport_error_handled_w :
    step draftState (Event.submitCycle 3 (Outcome.transportError "Failed to fetch") 5) =
      { messages := draftState.messages ++
          [{ id := Nat.repr 3, role := Role.user, content := draftState.input },
           { id := Nat.repr 6, role := Role.bot, content := "Error: " ++ "Failed to fetch" }]
        input := ""
        isLoading := false
        error := some "Failed to fetch" } ∧
    ∀ (text : String) (now : Nat), jsTrim text ≠ "" →
      (submitStart
          (step (step draftState (Event.submitCycle 3 (Outcome.transportError "Failed to fetch") 5))
            (Event.type text)) now).2.isSome = true :=
  transport_error_handled draftState 3 5 "Failed to fetch" (by decide) rfl

end Chat

namespace Chat

/-- A submit cycle whose guard fires leaves the state untouched. -/
lemma step_submitCycle_noop (s : ChatState) (t₁ : Nat) (out : Outcome) (t₂ : Nat)
    (hg : jsTrim s.input = "" ∨ s.isLoading) :
    step s (Event.submitCycle t₁ out t₂) = s := by
  simp only [step, submitStart, if_pos hg]

/-- A submit cycle that passes the guard appends exactly the user message and
the settlement message. -/
lemma step_submitCycle_pass (s : ChatState) (t₁ : Nat) (out : Outcome) (t₂ : Nat)
    (hne : jsTrim s.input ≠ "") (hfl : s.isLoading = false) :
    (step s (Event.submitCycle t₁ out t₂)).messages =
      s.messages ++
        [{ id := Nat.repr t₁, role := Role.user, content := s.input },
         { id := Nat.repr (t₂ + 1), role := Role.bot, content := settleContent out }] := by
  cases out <;> simp [step, submitStart, submitSettle, settleContent, hne, hfl]

/-- Every event only ever appends to the message list. -/
lemma step_messages_append (s : ChatState) (e : Event) :
    ∃ more, (step s e).messages = s.messages ++ more := by
  cases e with
  | type t => exact ⟨[], by simp [step]⟩
  | submitCycle t₁ out t₂ =>
    by_cases hg : jsTrim s.input = "" ∨ s.isLoading
    · exact ⟨[], by simp [step_submitCycle_noop s t₁ out t₂ hg]⟩
    · push_neg at hg
      exact ⟨_, step_submitCycle_pass s t₁ out t₂ hg.1 (by simpa using hg.2)⟩

/-- Invariant behind id uniqueness: if the current message ids are the decimal
representations of a strictly increasing list of clock values all below every
upcoming clock reading, and successive readings are at least 2 apart, the ids
stay the representations of a strictly increasing list. -/
lemma run_ids_strictMono :
    ∀ (evs : List Event) (s : ChatState) (ts : List Nat),
      s.messages.map Message.id = ts.map Nat.repr →
      List.Pairwise (· < ·) ts →
      (∀ a ∈ ts, ∀ t ∈ clockSeq evs, a < t) →
      List.Pairwise (fun a b => a + 2 ≤ b) (clockSeq evs) →
      ∃ ts', (run s evs).messages.map Message.id = ts'.map Nat.repr ∧
        List.Pairwise (· < ·) ts' := by
  intro evs
  induction evs with
  | nil =>
    intro s ts h1 h2 _ _
    exact ⟨ts, h1, h2⟩
  | cons e evs ih =>
    intro s ts h1 h2 hbound hgap
    show ∃ ts', (run (step s e) evs).messages.map Message.id = ts'.map Nat.repr ∧
      List.Pairwise (· < ·) ts'
    cases e with
    | type t =>
      refine ih (step s (Event.type t)) ts ?_ h2 ?_ ?_
      · simpa [step] using h1
      · intro a ha u hu
        exact hbound a ha u (by simpa [clockSeq, eventTimes] using hu)
      · simpa [clockSeq, eventTimes] using hgap
    | submitCycle t₁ out t₂ =>
      have hseq : clockSeq (Event.submitCycle t₁ out t₂ :: evs) =
          t₁ :: t₂ :: clockSeq evs := rfl
      rw [hseq] at hbound hgap
      obtain ⟨h₁all, hgap₂⟩ := List.pairwise_cons.mp hgap
      obtain ⟨h₂all, hgaprest⟩ := List.pairwise_cons.mp hgap₂
      have h₁₂ : t₁ + 2 ≤ t₂ := h₁all t₂ (List.mem_cons_self t₂ _)
      by_cases hg : jsTrim s.input = "" ∨ s.isLoading
      · rw [step_submitCycle_noop s t₁ out t₂ hg]
        refine ih s ts h1 h2 ?_ hgaprest
        intro a ha u hu
        exact hbound a ha u (by simp [hu])
      · push_neg at hg
        have hfl : s.isLoading = false := by simpa using hg.2
        refine ih (step s (Event.submitCycle t₁ out t₂)) (ts ++ [t₁, t₂ + 1]) ?_ ?_ ?_ hgaprest
        · rw [step_submitCycle_pass s t₁ out t₂ hg.1 hfl]
          simp [h1]
        · rw [List.pairwise_append]
          refine ⟨h2, ?_, ?_⟩
          · simp only [List.pairwise_cons, List.mem_singleton, List.pairwise_cons]
            refine ⟨?_, ?_⟩
            · intro b hb
              omega
            · simp
          · intro a ha b hb
            have ha₁ : a < t₁ := hbound a ha t₁ (by simp)
            have ha₂ : a < t₂ := hbound a ha t₂ (by simp)
            rw [List.mem_cons, List.mem_singleton] at hb
            rcases hb with rfl | rfl <;> omega
        · intro a ha u hu
          rw [List.mem_append, List.mem_cons, List.mem_singleton] at ha
          rcases ha with ha | rfl | rfl
          · exact hbound a ha u (by simp [hu])
          · have := h₁all u (by simp [hu])
            omega
          · have := h₂all u hu
            omega

/-- C9 fails as stated: with the weakly monotone clock of `collidingTrace`,
the first cycle's bot message gets id `(0+1).toString() = "1"` and the second
cycle's user message gets id `Date.now().toString() = "1"` — a reachable state
holds two messages with the same id. -/
theorem duplicate_id_trace :
    List.Pairwise (· ≤ ·) (clockSeq collidingTrace) ∧
    ¬ (((run initState collidingTrace).messages.map Message.id).Nodup) := by
  constructor <;> decide

/-- C9 amended: the message list is append-only (insertion order is
preserved; nothing is reordered, mutated or deleted), and — provided every two
successive `Date.now()` readings differ by at least 2 — no reachable state
contains two messages with the same id. -/
theorem messages_append_only_ids_nodup (evs : List Event)
    (hgap : List.Pairwise (fun a b => a + 2 ≤ b) (clockSeq evs)) :
    (∀ (s : ChatState) (e : Event), ∃ more, (step s e).messages = s.messages ++ more) ∧
    ((run initState evs).messages.map Message.id).Nodup := by
  refine ⟨step_messages_append, ?_⟩
  obtain ⟨ts', h1, h2⟩ :=
    run_ids_strictMono evs initState [] (by simp [initState]) (by simp) (by simp) hgap
  rw [h1]
  exact List.Nodup.map natRepr_injective (h2.imp fun h => Nat.ne_of_lt h)

/-- Witness for `messages_append_only_ids_nodup` on `gappedTrace`. -/
theorem messages_append_only_ids_nodup_w :
    List.Pairwise (fun a b => a + 2 ≤ b) (clockSeq gappedTrace) ∧
    ((run initState gappedTrace).messages.map Message.id).Nodup :=
  ⟨by decide, (messages_append_only_ids_nodup gappedTrace (by decide)).2⟩

end Chat
